import Mathlib

/-!
Verification of the PDF-OCR agentic extraction core
(`backend/app/agents/{layout_agent,structure_gate,table_agent,validator_agent,orchestrator}.py`
and `backend/app/models/document_graph.py`) against its natural-language
specification.

Python floats and `decimal.Decimal` values are modelled as `ℚ`; Python dicts
with fixed string keys are modelled as association lists or dedicated record
fields; a Python attribute access or name lookup that raises at runtime is
modelled as `Except.error` carrying the exception name.
-/

namespace PdfOcr

/-- `TokenType` enumeration, `document_graph.py` lines 14-26. -/
inductive TokenType where
  | TEXT
  | NUMBER
  | DATE
  | TIME
  | PHONE
  | CURRENCY
  | DATA_VOLUME
  | DURATION
  | EMAIL
  | URL
  | UNKNOWN
deriving DecidableEq

/-- `RegionType` enumeration, `document_graph.py` lines 29-37. -/
inductive RegionType where
  | TABLE
  | KEY_VALUE
  | LIST
  | TOTALS
  | HEADING
  | FOOTER
  | UNKNOWN
deriving DecidableEq

/-- `ValidationStatus` enumeration, `document_graph.py` lines 49-54. -/
inductive ValidationStatus where
  | PASS
  | FAIL
  | WARNING
  | PENDING
deriving DecidableEq

/-- `JobOutcome` enumeration, `document_graph.py` lines 57-62. -/
inductive JobOutcome where
  | SUCCESS
  | PARTIAL_SUCCESS
  | NO_MATCH
  | FAILED
deriving DecidableEq

/-- `AgentDecision.Action` enumeration, `document_graph.py` lines 180-187. -/
inductive DecisionAction where
  | ACCEPT
  | RETRY_PAD
  | RETRY_OCR
  | RETRY_HIGHER_DPI
  | SPLIT_REGION
  | ESCALATE
  | REJECT
deriving DecidableEq

/-- Python `Enum.name` of a `ValidationStatus` member (the member identifier,
used by `orchestrator.py` lines 548-549 as `e.validation_status.name`). -/
def ValidationStatus.enumName : ValidationStatus → String
  | .PASS => "PASS"
  | .FAIL => "FAIL"
  | .WARNING => "WARNING"
  | .PENDING => "PENDING"

/-- Python `str`-enum value of a `JobOutcome` member (the string persisted on
the wire, `document_graph.py` lines 57-62). -/
def JobOutcome.value : JobOutcome → String
  | .SUCCESS => "success"
  | .PARTIAL_SUCCESS => "partial_success"
  | .NO_MATCH => "no_match"
  | .FAILED => "failed"

/-- `BBox` dataclass, `document_graph.py` lines 65-71.  Its only fields are
`x`, `y`, `width`, `height`; it has no attribute `w` or `h`. -/
structure BBox where
  x : ℚ
  y : ℚ
  width : ℚ
  height : ℚ
deriving DecidableEq

/-- Evaluating `b.h` on a `BBox` raises `AttributeError` in Python, because the
dataclass only declares `x`, `y`, `width`, `height`. -/
def BBox.attrH (_ : BBox) : Except String ℚ :=
  Except.error "AttributeError: BBox object has no attribute h"

/-- Evaluating `b.w` on a `BBox` raises `AttributeError`. -/
def BBox.attrW (_ : BBox) : Except String ℚ :=
  Except.error "AttributeError: BBox object has no attribute w"

/-- `Token` dataclass, `document_graph.py` lines 92-105 (provenance fields
that no claim inspects are omitted). -/
structure Token where
  text : String
  bbox : BBox
  page : Nat
  token_type : TokenType
  confidence : ℚ
deriving DecidableEq

/-- `Region` dataclass, `document_graph.py` lines 111-130.  The `hints` dict is
only ever populated with the key `lines` (number of buffered lines) by
`_create_table_region`, modelled as the field `hintsLines`. -/
structure Region where
  region_id : String
  region_type : RegionType
  bbox : BBox
  page : Nat
  token_ids : List Nat
  detected_by : String
  confidence : ℚ
  hintsLines : Nat
deriving DecidableEq

/-- `Extraction` dataclass, `document_graph.py` lines 136-157 (the `data`
payload is passed separately to the validators that need it). -/
structure Extraction where
  extraction_id : String
  region_id : String
  confidence : ℚ
  validation_status : ValidationStatus
  validation_errors : List String
deriving DecidableEq

/-- `AgentDecision` dataclass, `document_graph.py` lines 174-193.  The
`next_params` dict carries only numeric values in the source
(`pad_fraction` and `dpi`), modelled as an association list. -/
structure AgentDecision where
  action : DecisionAction
  confidence : ℚ
  evidence : List String
  explanation : String
  next_params : List (String × ℚ)
deriving DecidableEq

namespace Orchestrator

/-- `ExpertOrchestrator._determine_outcome`, `orchestrator.py` lines 538-592:
count the extractions whose status name is `PASS` / `FAIL` and classify. -/
def determine_outcome (regions : List Region) (extractions : List Extraction) :
    JobOutcome :=
  let passed := extractions.filter (fun e => e.validation_status.enumName == "PASS")
  let failed := extractions.filter (fun e => e.validation_status.enumName == "FAIL")
  if regions.length = 0 then
    JobOutcome.NO_MATCH
  else if passed.length = 0 then
    JobOutcome.NO_MATCH
  else if failed.length > 0 then
    JobOutcome.PARTIAL_SUCCESS
  else
    JobOutcome.SUCCESS

/-- The outcome rule in the words of the specification (§4.5 step 5), stated
over the region count and the list of validation statuses.  This definition
follows the claim text and is compared with `determine_outcome`. -/
def outcome_per_claim (regionCount : Nat) (statuses : List ValidationStatus) :
    JobOutcome :=
  if regionCount = 0 then
    JobOutcome.NO_MATCH
  else if statuses.countP (fun s => s = ValidationStatus.PASS) = 0 then
    JobOutcome.NO_MATCH
  else if 0 < statuses.countP (fun s => s = ValidationStatus.FAIL) then
    JobOutcome.PARTIAL_SUCCESS
  else
    JobOutcome.SUCCESS

end Orchestrator

lemma filter_status_name_length (es : List Extraction) (n : String) :
    (es.filter (fun e => e.validation_status.enumName == n)).length =
      (es.map (fun e => e.validation_status)).countP
        (fun s => s.enumName == n) := by
  induction es with
  | nil => simp
  | cons e es ih =>
      by_cases h : e.validation_status.enumName == n <;>
        simp [List.filter_cons, List.countP_cons, h, ih]

lemma enumName_eq_pass (s : ValidationStatus) :
    (s.enumName == "PASS") = decide (s = ValidationStatus.PASS) := by
  cases s <;> rfl

lemma enumName_eq_fail (s : ValidationStatus) :
    (s.enumName == "FAIL") = decide (s = ValidationStatus.FAIL) := by
  cases s <;> rfl

/-- C1: For every completed job, `_determine_outcome` follows exactly the
claimed order: zero regions proposed → NO_MATCH; else zero extractions with
status PASS (all WARNING/FAIL count as zero passed) → NO_MATCH; else at least
one FAIL → PARTIAL_SUCCESS; else SUCCESS. -/
theorem C1_outcome_determination (regions : List Region)
    (extractions : List Extraction) :
    Orchestrator.determine_outcome regions extractions =
      Orchestrator.outcome_per_claim regions.length
        (extractions.map (fun e => e.validation_status)) := by
  unfold Orchestrator.determine_outcome Orchestrator.outcome_per_claim
  have h1 : ∀ s : ValidationStatus, s.enumName = "PASS" ↔ s = ValidationStatus.PASS := by
    intro s; cases s <;> simp [ValidationStatus.enumName]
  have h2 : ∀ s : ValidationStatus, s.enumName = "FAIL" ↔ s = ValidationStatus.FAIL := by
    intro s; cases s <;> simp [ValidationStatus.enumName]
  simp [h1, h2, beq_iff_eq, List.length_pos, List.filter_eq_nil_iff]

namespace ValidatorAgent

/-- `re.sub(r'[$£€¥,\s]', '', str(v))`: drop currency symbols, commas and
whitespace anywhere in the string (`validator_agent.py` lines 295 and 337). -/
def clean_cell (s : String) : List Char :=
  s.data.filter (fun c =>
    !(c == '$' || c == '£' || c == '€' || c == '¥' || c == ',' || c.isWhitespace))

def allDigits (cs : List Char) : Bool :=
  cs.all Char.isDigit

def digitsVal (cs : List Char) : Nat :=
  cs.foldl (fun a c => a * 10 + (c.toNat - 48)) 0

/-- Split a character list at every occurrence of a dot. -/
def splitDot (cs : List Char) : List (List Char) :=
  cs.foldr (fun c acc =>
    match acc with
    | [] => [[c]]
    | g :: gs => if c = '.' then [] :: g :: gs else (c :: g) :: gs) [[]]

/-- `decimal.Decimal(cleaned)` on the decimal literals this pipeline handles:
an optional sign, an integer part and an optional fractional part with at
least one digit overall; anything else raises `InvalidOperation`, modelled as
`none`.  Exotic `Decimal` forms (exponents, NaN, Infinity) occur neither in
the sources nor in the claims and are not modelled. -/
def parseDecimal (cs : List Char) : Option ℚ :=
  let signed : ℚ × List Char :=
    match cs with
    | '-' :: r => (-1, r)
    | '+' :: r => (1, r)
    | _ => (1, cs)
  match splitDot signed.2 with
  | [ip] =>
      if allDigits ip ∧ ip.length ≠ 0 then
        some (signed.1 * digitsVal ip)
      else none
  | [ip, fp] =>
      if allDigits ip ∧ allDigits fp ∧ ip.length + fp.length ≠ 0 then
        some (signed.1 * ((digitsVal ip : ℚ) + (digitsVal fp : ℚ) / (10 ^ fp.length)))
      else none
  | _ => none

/-- The error messages `_validate_sums` can append, modelled structurally
(`validator_agent.py` lines 328 and 351-354; the generic `except Exception`
handler at line 356 cannot fire because the only row indexing is guarded by
`col_idx < len(row)`). -/
inductive SumCheckError where
  | columnNotFound (col : String)
  | sumMismatch (col : String) (expected actual diff : ℚ)
deriving DecidableEq

/-- `values = [row[col_idx] for row in data_rows if col_idx < len(row)]`
(`validator_agent.py` line 333). -/
def column_values (data_rows : List (List String)) (col_idx : Nat) : List String :=
  data_rows.filterMap (fun row => row.get? col_idx)

/-- The values of a column that survive cleaning and `Decimal` parsing
(`validator_agent.py` lines 334-341). -/
def numeric_values (vals : List String) : List ℚ :=
  vals.filterMap (fun v => parseDecimal (clean_cell v))

/-- `actual_sum = sum(numeric_values)` (`validator_agent.py` line 343);
Python `sum` of an empty list is `0`. -/
def actual_sum (data_rows : List (List String)) (col_idx : Nat) : ℚ :=
  (numeric_values (column_values data_rows col_idx)).sum

/-- `ValidatorAgent._validate_sums`, `validator_agent.py` lines 303-359.
`TOTAL_TOLERANCE = 0.01`, and `Decimal(str(0.01))` is exactly `1/100`. -/
def validate_sums (rows : List (List String))
    (expected_total : List (String × ℚ)) : List SumCheckError :=
  if rows.length < 2 then []
  else
    match rows with
    | [] => []
    | headers :: data_rows =>
        expected_total.foldl (fun errors p =>
          match headers.findIdx? (fun h => h == p.1) with
          | none => errors ++ [SumCheckError.columnNotFound p.1]
          | some col_idx =>
              let s := actual_sum data_rows col_idx
              let tolerance := |p.2 * (1 / 100)|
              let diff := |s - p.2|
              if tolerance < diff then
                errors ++ [SumCheckError.sumMismatch p.1 p.2 s diff]
              else errors) []

/-- Whether `_validate_sums` reported a sum mismatch for the named column. -/
def sum_mismatch_emitted (rows : List (List String))
    (expected_total : List (String × ℚ)) (col : String) : Bool :=
  (validate_sums rows expected_total).any (fun e =>
    match e with
    | SumCheckError.sumMismatch c _ _ _ => c == col
    | _ => false)

/-- The `AgentDecision` returned when no hard error was found
(`validator_agent.py` lines 118-123). -/
def accept_decision (e : Extraction) (confidence : ℚ) : AgentDecision :=
  { action := DecisionAction.ACCEPT
    confidence := confidence
    evidence := [e.extraction_id]
    explanation := "All validations passed"
    next_params := [] }

/-- The status-update and decision tail of `ValidatorAgent.validate_extraction`
(`validator_agent.py` lines 98-123), applied to the error and warning lists
accumulated by the rule phase (the optional LLM phase only ever extends
`warnings`, lines 90-96, so it is covered by quantifying over `warnings`). -/
def validate_extraction_update (e : Extraction) (errors warnings : List String)
    (confidence : ℚ) : Extraction × AgentDecision :=
  let e1 := { e with validation_errors := errors ++ warnings }
  if errors.isEmpty = false then
    ({ e1 with validation_status := ValidationStatus.FAIL
               confidence := min e.confidence confidence },
     { action := DecisionAction.RETRY_PAD
       confidence := 7 / 10
       evidence := [e.extraction_id] ++ errors
       explanation := "Validation failed: " ++ String.intercalate "; " (errors.take 2)
       next_params := [] })
  else if warnings.isEmpty = false then
    ({ e1 with validation_status := ValidationStatus.WARNING
               confidence := min e.confidence (9 / 10) },
     accept_decision e confidence)
  else
    ({ e1 with validation_status := ValidationStatus.PASS },
     accept_decision e confidence)

end ValidatorAgent

/-- C3: for every validated extraction, at least one hard error gives status
FAIL and decision action RETRY_PAD; no errors but at least one warning gives
status WARNING with the confidence capped at 0.9; neither gives status PASS. -/
theorem C3_validation_outcome_mapping (e : Extraction)
    (errors warnings : List String) (confidence : ℚ) :
    ((ValidatorAgent.validate_extraction_update e errors warnings confidence).1.validation_status =
      if errors ≠ [] then ValidationStatus.FAIL
      else if warnings ≠ [] then ValidationStatus.WARNING
      else ValidationStatus.PASS)
    ∧ ((ValidatorAgent.validate_extraction_update e errors warnings confidence).2.action =
      if errors ≠ [] then DecisionAction.RETRY_PAD
      else DecisionAction.ACCEPT)
    ∧ ((ValidatorAgent.validate_extraction_update e errors warnings confidence).1.confidence =
      if errors ≠ [] then min e.confidence confidence
      else if warnings ≠ [] then min e.confidence (9 / 10)
      else e.confidence)
    ∧ min e.confidence (9 / 10) ≤ 9 / 10 := by
  refine ⟨?_, ?_, ?_, min_le_right _ _⟩ <;>
    cases errors <;> cases warnings <;>
      simp [ValidatorAgent.validate_extraction_update, ValidatorAgent.accept_decision]

lemma validate_sums_single (headers : List String) (data_rows : List (List String))
    (col : String) (E : ℚ) (i : Nat)
    (hfind : headers.findIdx? (fun h => h == col) = some i)
    (hne : data_rows ≠ []) :
    ValidatorAgent.validate_sums (headers :: data_rows) [(col, E)] =
      if |E * (1 / 100)| < |ValidatorAgent.actual_sum data_rows i - E| then
        [ValidatorAgent.SumCheckError.sumMismatch col E
          (ValidatorAgent.actual_sum data_rows i)
          |ValidatorAgent.actual_sum data_rows i - E|]
      else [] := by
  have hlen : ¬ ((headers :: data_rows).length < 2) := by
    cases data_rows with
    | nil => exact absurd rfl hne
    | cons d ds => simp [List.length]
  unfold ValidatorAgent.validate_sums
  rw [if_neg hlen]
  simp only [List.foldl_cons, List.foldl_nil, hfind]
  by_cases hc : |E * (1 / 100)| < |ValidatorAgent.actual_sum data_rows i - E|
  · rw [if_pos hc, if_pos hc]; simp
  · rw [if_neg hc, if_neg hc]

lemma actual_sum_4850 :
    ValidatorAgent.actual_sum [["01/12", "$48.50"], ["02/12", "$100.00"]] 1 = 297 / 2 := by
  have h : ValidatorAgent.actual_sum [["01/12", "$48.50"], ["02/12", "$100.00"]] 1 =
      (1 : ℚ) * ((48 : ℚ) + (50 : ℚ) / 10 ^ 2) +
        ((1 : ℚ) * ((100 : ℚ) + (0 : ℚ) / 10 ^ 2) + 0) := rfl
  rw [h]; norm_num

lemma actual_sum_5150 :
    ValidatorAgent.actual_sum [["01/12", "$51.50"], ["02/12", "$100.00"]] 1 = 303 / 2 := by
  have h : ValidatorAgent.actual_sum [["01/12", "$51.50"], ["02/12", "$100.00"]] 1 =
      (1 : ℚ) * ((51 : ℚ) + (50 : ℚ) / 10 ^ 2) +
        ((1 : ℚ) * ((100 : ℚ) + (0 : ℚ) / 10 ^ 2) + 0) := rfl
  rw [h]; norm_num

lemma actual_sum_4000 :
    ValidatorAgent.actual_sum [["01/12", "$40.00"], ["02/12", "$100.00"]] 1 = 140 := by
  have h : ValidatorAgent.actual_sum [["01/12", "$40.00"], ["02/12", "$100.00"]] 1 =
      (1 : ℚ) * ((40 : ℚ) + (0 : ℚ) / 10 ^ 2) +
        ((1 : ℚ) * ((100 : ℚ) + (0 : ℚ) / 10 ^ 2) + 0) := rfl
  rw [h]; norm_num

/-- C6: the sum check of `_validate_sums` flags a named column exactly when the
summed column values differ from the declared expected total by more than the
1% relative tolerance `|expected * 0.01|`; with expected total 150.00, actual
sums of 148.50 and 151.50 produce no sum-mismatch error and an actual sum of
140.00 produces a hard sum-mismatch error. -/
theorem C6_sum_tolerance :
    (∀ (headers : List String) (data_rows : List (List String)) (col : String)
        (E : ℚ) (i : Nat),
        headers.findIdx? (fun h => h == col) = some i →
        data_rows ≠ [] →
        (ValidatorAgent.sum_mismatch_emitted (headers :: data_rows) [(col, E)] col = true ↔
          |E * (1 / 100)| < |ValidatorAgent.actual_sum data_rows i - E|))
    ∧ ValidatorAgent.sum_mismatch_emitted
        [["date", "amount"], ["01/12", "$48.50"], ["02/12", "$100.00"]]
        [("amount", 150)] "amount" = false
    ∧ ValidatorAgent.sum_mismatch_emitted
        [["date", "amount"], ["01/12", "$51.50"], ["02/12", "$100.00"]]
        [("amount", 150)] "amount" = false
    ∧ ValidatorAgent.validate_sums
        [["date", "amount"], ["01/12", "$40.00"], ["02/12", "$100.00"]]
        [("amount", 150)] =
        [ValidatorAgent.SumCheckError.sumMismatch "amount" 150 140 10] := by
  refine ⟨?_, ?_, ?_, ?_⟩
  · intro headers data_rows col E i hfind hne
    rw [ValidatorAgent.sum_mismatch_emitted,
      validate_sums_single headers data_rows col E i hfind hne]
    by_cases hc : |E * (1 / 100)| < |ValidatorAgent.actual_sum data_rows i - E|
    · rw [if_pos hc]; simpa using hc
    · rw [if_neg hc]; simpa using hc
  · rw [ValidatorAgent.sum_mismatch_emitted,
      validate_sums_single _ _ _ _ 1 (by decide) (by simp), actual_sum_4850]
    have hc : ¬ (|(150 : ℚ) * (1 / 100)| < |(297 : ℚ) / 2 - 150|) := by norm_num
    rw [if_neg hc]
    rfl
  · rw [ValidatorAgent.sum_mismatch_emitted,
      validate_sums_single _ _ _ _ 1 (by decide) (by simp), actual_sum_5150]
    have hc : ¬ (|(150 : ℚ) * (1 / 100)| < |(303 : ℚ) / 2 - 150|) := by norm_num
    rw [if_neg hc]
    rfl
  · rw [validate_sums_single _ _ _ _ 1 (by decide) (by simp), actual_sum_4000]
    have habs : |(140 : ℚ) - 150| = 10 := by
      rw [show ((140 : ℚ) - 150) = -10 by norm_num, abs_neg,
        abs_of_pos (by norm_num : (0 : ℚ) < 10)]
    have hc : |(150 : ℚ) * (1 / 100)| < |(140 : ℚ) - 150| := by
      rw [habs, show (150 : ℚ) * (1 / 100) = 3 / 2 by norm_num,
        abs_of_pos (by norm_num : (0 : ℚ) < 3 / 2)]
      norm_num
    rw [if_pos hc, habs]

/-- C6 witness: the tolerance characterisation applied to the concrete
"amount" table summing to 148.50 against an expected total of 150.00. -/
theorem C6_sum_tolerance_witness :
    ValidatorAgent.sum_mismatch_emitted
        [["date", "amount"], ["01/12", "$48.50"], ["02/12", "$100.00"]]
        [("amount", 150)] "amount" = true ↔
      |(150 : ℚ) * (1 / 100)| <
        |ValidatorAgent.actual_sum [["01/12", "$48.50"], ["02/12", "$100.00"]] 1 - 150| :=
  C6_sum_tolerance.1 ["date", "amount"] [["01/12", "$48.50"], ["02/12", "$100.00"]]
    "amount" 150 1 (by decide) (by simp)

/-- `pat` occurs as a contiguous substring starting at some position of
`hay`. -/
def hasSubstr : List Char → List Char → Bool
  | [], needle => needle.isEmpty
  | c :: rest, needle => needle.isPrefixOf (c :: rest) || hasSubstr rest needle

/-- Python substring test `needle in haystack`. -/
def strContains (haystack needle : String) : Bool :=
  hasSubstr haystack.data needle.data

/-- Python `str.endswith(suffix)`. -/
def strEndsWith (s suffix : String) : Bool :=
  suffix.data.reverse.isPrefixOf s.data.reverse

/-- Python `str.lower()` (character-wise, over the string data). -/
def strLower (s : String) : String :=
  ⟨s.data.map Char.toLower⟩

namespace Orchestrator

/-- `ExpertOrchestrator._decide_retry_strategy`, `orchestrator.py` lines
503-536. -/
def decide_retry_strategy (extraction : Extraction) : AgentDecision :=
  if extraction.confidence < 1 / 2 then
    { action := DecisionAction.RETRY_PAD
      confidence := 7 / 10
      evidence := [extraction.extraction_id]
      explanation := "Low confidence suggests crop may be incomplete"
      next_params := [("pad_fraction", 1 / 10)] }
  else if extraction.validation_errors.any
      (fun err => strContains (strLower err) "missing") then
    { action := DecisionAction.RETRY_OCR
      confidence := 8 / 10
      evidence := [extraction.extraction_id]
      explanation := "Missing data suggests OCR may help"
      next_params := [("dpi", 300)] }
  else
    { action := DecisionAction.ESCALATE
      confidence := 9 / 10
      evidence := [extraction.extraction_id]
      explanation := "Unable to determine automatic fix"
      next_params := [] }

/-- `ExpertOrchestrator._retry_with_padding`, `orchestrator.py` lines 458-491.
If the extraction names no known region the method logs and returns (line
460-463).  Otherwise it reads `pad_fraction` from `params` with default 0.1
(line 465) and then evaluates `BBox(x=..., ...)` at line 469.  The module
imports (`orchestrator.py` lines 18-22) bring in `DocumentGraph`, `Region`,
`Extraction`, `AgentDecision`, `RegionType`, `ValidationStatus`,
`ExtractionMethod`, `JobOutcome` and `LayoutAgent` but never `BBox`, and
Python resolves the callee before its arguments, so the call raises
`NameError` whenever it is reached.  (Had `BBox` been importable, the
argument expressions `region.bbox.w` / `region.bbox.h` at lines 472-473 would
raise `AttributeError` and `Region(source_agent=...)` at line 482 would raise
`TypeError`: `Region` has no such keyword.)  The padded region, the
supersede-marking of the old extraction and the re-dispatch at lines 476-491
are therefore unreachable. -/
def retry_with_padding (regions : List Region) (extraction : Extraction)
    (params : List (String × ℚ)) : Except String Unit :=
  match regions.find? (fun r => r.region_id == extraction.region_id) with
  | none => Except.ok ()
  | some _region =>
      let _pad_fraction := (params.lookup "pad_fraction").getD (1 / 10)
      Except.error "NameError: name BBox is not defined"

/-- The minimal observable state of `ExpertOrchestrator.run`
(`orchestrator.py` lines 53-100): terminal `status`, the `outcome` field as
the string persisted on the wire, and whether the error text was appended to
`trace` and `decisions`. -/
structure RunResult where
  status : String
  outcome : Option String
  trace_error : Option String
  decision_error : Option String
deriving DecidableEq

/-- `ExpertOrchestrator.run`, `orchestrator.py` lines 53-100, as a function of
the result of the staged pipeline (steps 1-4): on success the outcome is
computed by `_determine_outcome` and the status becomes `completed`; any
unhandled exception is caught at line 83, the status becomes `failed`, the
field `graph.outcome` is assigned the *string literal* `"FAILED"` (line 86,
not the enum member `JobOutcome.FAILED`, whose persisted value is
`"failed"`), and the error text is appended to both the trace (lines 87-92)
and the decision log (lines 93-98). -/
def run_model (pipeline : Except String (List Region × List Extraction)) :
    RunResult :=
  match pipeline with
  | Except.ok p =>
      { status := "completed"
        outcome := some (determine_outcome p.1 p.2).value
        trace_error := none
        decision_error := none }
  | Except.error e =>
      { status := "failed"
        outcome := some "FAILED"
        trace_error := some e
        decision_error := some e }

end Orchestrator

/-- The concrete TABLE region used in the C2 retry scenario. -/
def regionC2 : Region :=
  { region_id := "table_p0_l0"
    region_type := RegionType.TABLE
    bbox := { x := 2 / 10, y := 2 / 10, width := 5 / 10, height := 3 / 10 }
    page := 0
    token_ids := [0, 1, 2, 3]
    detected_by := "layout_agent"
    confidence := 7 / 10
    hintsLines := 3 }

/-- The concrete failed extraction used in the C2 retry scenario: status FAIL,
confidence 0.4, never retried before. -/
def extractionC2 : Extraction :=
  { extraction_id := "ext_table_p0_l0"
    region_id := "table_p0_l0"
    confidence := 2 / 5
    validation_status := ValidationStatus.FAIL
    validation_errors := ["Too few rows: 0"] }

/-- C2: for the failed extraction with confidence 0.4 and no prior retry, the
retry step does produce a RETRY_PAD decision with pad_fraction 0.1, but
executing the padded retry raises `NameError` (the name `BBox` is unresolved
in `orchestrator.py`), so no padded region, no WARNING supersede-mark and no
re-dispatch ever happen. -/
theorem C2_padded_retry_name_error :
    extractionC2.validation_status = ValidationStatus.FAIL
    ∧ extractionC2.confidence < 1 / 2
    ∧ strEndsWith extractionC2.extraction_id "_retry" = false
    ∧ (Orchestrator.decide_retry_strategy extractionC2).action = DecisionAction.RETRY_PAD
    ∧ (Orchestrator.decide_retry_strategy extractionC2).next_params.lookup "pad_fraction" =
        some (1 / 10)
    ∧ Orchestrator.retry_with_padding [regionC2] extractionC2
        (Orchestrator.decide_retry_strategy extractionC2).next_params =
        Except.error "NameError: name BBox is not defined" := by
  have hconf : extractionC2.confidence < 1 / 2 := by
    rw [show extractionC2.confidence = 2 / 5 from rfl]
    norm_num
  have hd : Orchestrator.decide_retry_strategy extractionC2 =
      { action := DecisionAction.RETRY_PAD
        confidence := 7 / 10
        evidence := [extractionC2.extraction_id]
        explanation := "Low confidence suggests crop may be incomplete"
        next_params := [("pad_fraction", 1 / 10)] } := by
    rw [Orchestrator.decide_retry_strategy, if_pos hconf]
  refine ⟨rfl, hconf, by decide, ?_, ?_, ?_⟩
  · rw [hd]
  · rw [hd]; rfl
  · rw [hd]; rfl

/-- C8: any unhandled exception during ingestion or processing terminates the
job with status `failed` and records the error text in both the decision log
and the trace, without running the normal outcome determination — but the
`outcome` field on this path is the raw string `"FAILED"`, which is not the
persisted wire value of any of the four `JobOutcome` members (the member
`JobOutcome.FAILED` persists as `"failed"`). -/
theorem C8_failure_path_outcome_string (e : String) :
    (Orchestrator.run_model (Except.error e)).status = "failed"
    ∧ (Orchestrator.run_model (Except.error e)).trace_error = some e
    ∧ (Orchestrator.run_model (Except.error e)).decision_error = some e
    ∧ (Orchestrator.run_model (Except.error e)).outcome = some "FAILED"
    ∧ ¬ ((JobOutcome.SUCCESS.value = "FAILED") ∨
          (JobOutcome.PARTIAL_SUCCESS.value = "FAILED") ∨
          (JobOutcome.NO_MATCH.value = "FAILED") ∨
          (JobOutcome.FAILED.value = "FAILED")) :=
  ⟨rfl, rfl, rfl, rfl, by decide⟩

/-- Insert into a sorted list (helper for `sortBy`). -/
def insertSorted (le : α → α → Bool) (x : α) : List α → List α
  | [] => [x]
  | y :: ys => if le x y then x :: y :: ys else y :: insertSorted le x ys

/-- Insertion sort by a boolean comparison; models Python `sorted`/`list.sort`
(every use below is either on a list whose order the claims do not inspect or
inside a computation that has already raised). -/
def sortBy (le : α → α → Bool) : List α → List α
  | [] => []
  | x :: xs => insertSorted le x (sortBy le xs)

/-- Sort key `(t.bbox.y, t.bbox.x)` used at `layout_agent.py` line 173 and
`structure_gate.py` line 188. -/
def leYX (a b : Token) : Bool :=
  decide (a.bbox.y < b.bbox.y ∨ (a.bbox.y = b.bbox.y ∧ a.bbox.x ≤ b.bbox.x))

/-- Sort key `t.bbox.x` used when a line is closed (`layout_agent.py` lines
188 and 194, `structure_gate.py` lines 201 and 207). -/
def leX (a b : Token) : Bool :=
  decide (a.bbox.x ≤ b.bbox.x)

namespace LayoutAgent

/-- `LayoutAgent.cluster_tokens_into_lines`, `layout_agent.py` lines 149-198.
With `y_tolerance=None` (the only way the pipeline calls it, line 391) the
adaptive tolerance reads `t.bbox.h` for every token (line 164), and the loop
body reads `token.bbox.h` and `current_line[0].bbox.h` (lines 181-182).
`BBox` declares `x`, `y`, `width`, `height` and no `h`, so these accesses
raise `AttributeError`, modelled by `BBox.attrH`. -/
def cluster_tokens_into_lines (tokens : List Token) (y_tolerance : Option ℚ) :
    Except String (List (List Token)) := do
  match tokens with
  | [] => return []
  | _ :: _ =>
    let tol ← match y_tolerance with
      | some t => pure t
      | none => do
          let hs ← tokens.mapM (fun t => t.bbox.attrH)
          let token_heights := hs.filter (fun h => decide (0 < h))
          match token_heights with
          | [] => pure ((1 : ℚ) / 100)
          | _ :: _ =>
              let sorted_h := sortBy (fun a b => decide (a ≤ b)) token_heights
              pure ((sorted_h.getD (token_heights.length / 2) 0) * (1 / 2))
    let sorted_tokens := sortBy leYX tokens
    match sorted_tokens with
    | [] => return []
    | t0 :: rest =>
        let st ← rest.foldlM
          (fun (acc : List (List Token) × List Token × ℚ) token => do
            let h ← token.bbox.attrH
            let token_y := token.bbox.y + h / 2
            let h0 ← ((acc.2.1.headD token).bbox).attrH
            let current_center_y := acc.2.2 + h0 / 2
            if decide (|token_y - current_center_y| ≤ tol) then
              pure (acc.1, acc.2.1 ++ [token], acc.2.2)
            else
              pure (acc.1 ++ [sortBy leX acc.2.1], [token], token.bbox.y))
          ([], [t0], t0.bbox.y)
        match st.2.1 with
        | [] => return st.1
        | _ :: _ => return st.1 ++ [sortBy leX st.2.1]

end LayoutAgent

namespace StructureGate

/-- `StructureGate._cluster_tokens_into_lines`, `structure_gate.py` lines
174-210: the same algorithm with the adaptive tolerance always computed from
`t.bbox.h` (line 181), which raises `AttributeError` on the `BBox`
dataclass. -/
def cluster_tokens_into_lines (tokens : List Token) :
    Except String (List (List Token)) := do
  match tokens with
  | [] => return []
  | _ :: _ =>
    let tol ← do
      let hs ← tokens.mapM (fun t => t.bbox.attrH)
      let token_heights := hs.filter (fun h => decide (0 < h))
      match token_heights with
      | [] => pure ((1 : ℚ) / 100)
      | _ :: _ =>
          let sorted_h := sortBy (fun a b => decide (a ≤ b)) token_heights
          pure ((sorted_h.getD (token_heights.length / 2) 0) * (1 / 2))
    let sorted_tokens := sortBy leYX tokens
    match sorted_tokens with
    | [] => return []
    | t0 :: rest =>
        let st ← rest.foldlM
          (fun (acc : List (List Token) × List Token × ℚ) token => do
            let h ← token.bbox.attrH
            let token_y := token.bbox.y + h / 2
            let h0 ← ((acc.2.1.headD token).bbox).attrH
            let current_center_y := acc.2.2 + h0 / 2
            if decide (|token_y - current_center_y| ≤ tol) then
              pure (acc.1, acc.2.1 ++ [token], acc.2.2)
            else
              pure (acc.1 ++ [sortBy leX acc.2.1], [token], token.bbox.y))
          ([], [t0], t0.bbox.y)
        match st.2.1 with
        | [] => return st.1
        | _ :: _ => return st.1 ++ [sortBy leX st.2.1]

/-- `StructureGate._detect_column_alignment`, `structure_gate.py` lines
212-250; the adaptive x tolerance reads `t.bbox.w` (line 224), which raises
`AttributeError`. -/
def detect_column_alignment (tokens : List Token) :
    Except String (List (List Token)) := do
  match tokens with
  | [] => return []
  | _ :: _ =>
    let tol ← do
      let ws ← tokens.mapM (fun t => t.bbox.attrW)
      let token_widths := ws.filter (fun w => decide (0 < w))
      match token_widths with
      | [] => pure ((2 : ℚ) / 100)
      | _ :: _ =>
          let sorted_w := sortBy (fun a b => decide (a ≤ b)) token_widths
          pure ((sorted_w.getD (token_widths.length / 2) 0) * (1 / 2))
    let sorted_tokens := sortBy leX tokens
    match sorted_tokens with
    | [] => return []
    | t0 :: rest =>
        let st := rest.foldl
          (fun (acc : List (List Token) × List Token × ℚ) token =>
            if decide (|token.bbox.x - acc.2.2| ≤ tol) then
              (acc.1, acc.2.1 ++ [token], acc.2.2)
            else
              ((if 2 ≤ acc.2.1.length then acc.1 ++ [acc.2.1] else acc.1),
                [token], token.bbox.x))
          ([], [t0], t0.bbox.x)
        if 2 ≤ st.2.1.length then
          return st.1 ++ [st.2.1]
        else
          return st.1

/-- Token types counted by the structure checks (everything except TEXT). -/
def nonTextTypes : List TokenType :=
  [TokenType.NUMBER, TokenType.DATE, TokenType.TIME, TokenType.PHONE,
   TokenType.CURRENCY, TokenType.DATA_VOLUME, TokenType.DURATION,
   TokenType.EMAIL, TokenType.URL, TokenType.UNKNOWN]

/-- `StructureGate._check_type_repetition`, `structure_gate.py` lines 252-269:
the number of non-TEXT semantic types occurring at least twice. -/
def check_type_repetition (tokens : List Token) : Nat :=
  (nonTextTypes.filter (fun ty =>
    2 ≤ tokens.countP (fun t => t.token_type = ty))).length

/-- `StructureGate._calculate_text_density`, `structure_gate.py` lines
271-289; reads `region_bbox.w`, `region_bbox.h` and every token's
`bbox.w`/`bbox.h`, all of which raise `AttributeError`. -/
def calculate_text_density (tokens : List Token) (region_bbox : BBox) :
    Except String ℚ := do
  let wq ← region_bbox.attrW
  let hq ← region_bbox.attrH
  if decide (wq ≤ 0 ∨ hq ≤ 0) then
    return 0
  else
    let region_area := wq * hq
    let areas ← tokens.mapM (fun t => do
      let tw ← t.bbox.attrW
      let th ← t.bbox.attrH
      pure (tw * th))
    return min (areas.sum / region_area) 1

/-- The strongly-typed token types counted for the data bonus
(`structure_gate.py` lines 162-165). -/
def dataBonusTypes : List TokenType :=
  [TokenType.DATE, TokenType.CURRENCY, TokenType.DATA_VOLUME,
   TokenType.DURATION, TokenType.TIME, TokenType.NUMBER]

/-- `StructureGate._score_extractability`, `structure_gate.py` lines 105-172.
The `reasons` dict is modelled as the list of the `fail` reasons recorded on
the early-return paths (the informational entries are not inspected by any
claim). -/
def score_extractability (tokens : List Token) (region : Region) :
    Except String (ℚ × List String) := do
  let lines ← StructureGate.cluster_tokens_into_lines tokens
  let row_count := lines.length
  if decide (row_count < 3) then
    return (0, ["insufficient_rows"])
  else
    let s1 : ℚ := 0 + 2 / 10
    let x_clusters ← detect_column_alignment tokens
    if decide (x_clusters.length < 2) then
      return (2 / 10, ["insufficient_columns"])
    else
      let s2 := s1 + 2 / 10
      let s3 := if 2 ≤ check_type_repetition tokens then s2 + 2 / 10 else s2
      let avg_tokens_per_line := (tokens.length : ℚ) / max (row_count : ℚ) 1
      if decide (15 < avg_tokens_per_line) then
        return (2 / 10, ["too_prose_like"])
      else
        let s4 := s3 + 2 / 10
        let density ← calculate_text_density tokens region.bbox
        if decide (density < 5 / 100) then
          return (4 / 10, ["too_empty"])
        else
          let s5 := s4 + 2 / 10
          let data_type_count :=
            tokens.countP (fun t => dataBonusTypes.contains t.token_type)
          let dataShare := (data_type_count : ℚ) / max (tokens.length : ℚ) 1
          let s6 := if decide (3 / 10 < dataShare) then s5 + 1 / 10 else s5
          return (min s6 1, [])

end StructureGate

lemma layout_cluster_cons_error (t : Token) (ts : List Token) :
    LayoutAgent.cluster_tokens_into_lines (t :: ts) none =
      Except.error "AttributeError: BBox object has no attribute h" := rfl

lemma gate_cluster_cons_error (t : Token) (ts : List Token) :
    StructureGate.cluster_tokens_into_lines (t :: ts) =
      Except.error "AttributeError: BBox object has no attribute h" := rfl

lemma score_cons_error (t : Token) (ts : List Token) (region : Region) :
    StructureGate.score_extractability (t :: ts) region =
      Except.error "AttributeError: BBox object has no attribute h" := rfl

/-- C5: the Structure Gate is claimed to score a region 0 and reject it when
its tokens re-cluster into fewer than 3 rows; in fact `_score_extractability`
never reaches the row-count comparison for any region with tokens, because
`_cluster_tokens_into_lines` evaluates `t.bbox.h` (line 181) on a `BBox` that
only declares `width`/`height`, raising `AttributeError` — the region is
neither scored nor rejected, and the exception escapes `filter_regions`. -/
theorem C5_row_floor_attribute_error (t : Token) (ts : List Token)
    (region : Region) :
    StructureGate.score_extractability (t :: ts) region =
      Except.error "AttributeError: BBox object has no attribute h" :=
  score_cons_error t ts region

/-- Token used in the C9 counterexample. -/
def tokenC9 : Token :=
  { text := "a", bbox := { x := 0, y := 0, width := 1, height := 1 },
    page := 0, token_type := TokenType.TEXT, confidence := 1 }

/-- Second token used in the C9 witness. -/
def tokenC9b : Token :=
  { text := "b", bbox := { x := 1, y := 2, width := 1, height := 1 },
    page := 0, token_type := TokenType.TEXT, confidence := 1 }

/-- C9 counterexample: line clustering does not produce any partition at all
on the one-token list (under the identity permutation), because the default
adaptive-tolerance computation raises `AttributeError` on `bbox.h`; hence the
claim "clustering produces the same partition of the tokens into line groups"
is false at this input. -/
theorem C9_reorder_counterexample :
    List.Perm [tokenC9] [tokenC9] ∧
      ¬ ∃ P, LayoutAgent.cluster_tokens_into_lines [tokenC9] none = Except.ok P := by
  refine ⟨List.Perm.refl _, ?_⟩
  rintro ⟨P, hP⟩
  rw [layout_cluster_cons_error] at hP
  exact Except.noConfusion hP

/-- C9 (amended): for every token list and every permutation of it, the
default call of `cluster_tokens_into_lines` returns the *same `Except`
value* — the empty line list for the empty list, and for every nonempty list
the `AttributeError` raised by the `bbox.h` access, so no partition is ever
produced and the (absent) result is trivially invariant under reordering. -/
theorem C9_reorder_invariance_of_result (l l2 : List Token)
    (h : List.Perm l l2) :
    LayoutAgent.cluster_tokens_into_lines l none =
      LayoutAgent.cluster_tokens_into_lines l2 none := by
  cases l with
  | nil =>
      have hnil : l2 = [] := h.symm.eq_nil
      rw [hnil]
  | cons t ts =>
      cases l2 with
      | nil => exact absurd h.eq_nil (by simp)
      | cons u us => rw [layout_cluster_cons_error, layout_cluster_cons_error]

/-- C9 amended-claim witness: the invariance theorem applied to a concrete
two-token list and its swap. -/
theorem C9_reorder_invariance_of_result_witness :
    LayoutAgent.cluster_tokens_into_lines [tokenC9, tokenC9b] none =
      LayoutAgent.cluster_tokens_into_lines [tokenC9b, tokenC9] none :=
  C9_reorder_invariance_of_result [tokenC9, tokenC9b] [tokenC9b, tokenC9]
    (List.Perm.swap tokenC9b tokenC9 [])

/-- Token used in the C10 evaluation. -/
def tokenC10 : Token :=
  { text := "06", bbox := { x := 0, y := 0, width := 1, height := 1 },
    page := 0, token_type := TokenType.NUMBER, confidence := 1 }

/-- Region used in the C10 evaluation. -/
def regionC10 : Region :=
  { region_id := "table_p0_l0"
    region_type := RegionType.TABLE
    bbox := { x := 0, y := 0, width := 1, height := 1 }
    page := 0
    token_ids := [0]
    detected_by := "layout_agent"
    confidence := 7 / 10
    hintsLines := 3 }

/-- C10: the geometric clustering is not total on lists of `BBox`-carrying
tokens: on a one-token list, `LayoutAgent.cluster_tokens_into_lines`,
`StructureGate._cluster_tokens_into_lines` and the gate scoring all raise
`AttributeError`, because the `bbox.h` / `bbox.w` accesses they perform are
not defined on the `BBox` dataclass (fields `width`/`height`). -/
theorem C10_clustering_attribute_error :
    LayoutAgent.cluster_tokens_into_lines [tokenC10] none =
        Except.error "AttributeError: BBox object has no attribute h"
    ∧ StructureGate.cluster_tokens_into_lines [tokenC10] =
        Except.error "AttributeError: BBox object has no attribute h"
    ∧ StructureGate.score_extractability [tokenC10] regionC10 =
        Except.error "AttributeError: BBox object has no attribute h" :=
  ⟨rfl, rfl, rfl⟩

namespace LayoutAgent

/-- `LayoutAgent.TABLE_STOP_CUES`, `layout_agent.py` lines 69-73. -/
def TABLE_STOP_CUES : List String :=
  ["total", "subtotal", "balance", "grand total",
   "gigabyte", "megabyte", "kilobyte",
   "1 gigabyte", "1 megabyte", "1 gb =", "1 mb ="]

/-- The membership test
`t.token_type in [NUMBER, CURRENCY, DATA_VOLUME, DATE]`
(`layout_agent.py` lines 280-282). -/
def is_table_data_type : TokenType → Bool
  | TokenType.NUMBER => true
  | TokenType.CURRENCY => true
  | TokenType.DATA_VOLUME => true
  | TokenType.DATE => true
  | _ => false

/-- `' '.join(t.text for t in line_tokens).lower()`
(`layout_agent.py` line 275). -/
def joined_lower (line : List Token) : String :=
  strLower (String.intercalate " " (line.map (fun t => t.text)))

/-- `LayoutAgent._create_table_region`, `layout_agent.py` lines 322-356.  The
Python `token_id_map` parameter defaults to `None`, and the truthiness test
`if token_id_map:` treats both `None` and an empty dict as false, leaving
`token_ids = []`.  The `id(t)` identity keys are modelled by comparing tokens
by value, which coincides with identity for the distinct tokens used in the
claims. -/
def create_table_region (table_lines : List (List Token)) (page_num : Nat)
    (start_idx : Nat) (token_id_map : Option (List (Token × Nat))) :
    Option Region :=
  match table_lines.flatten with
  | [] => none
  | t0 :: rest =>
      let all_tokens := t0 :: rest
      let min_x := rest.foldl (fun a t => min a t.bbox.x) t0.bbox.x
      let min_y := rest.foldl (fun a t => min a t.bbox.y) t0.bbox.y
      let max_x := rest.foldl (fun a t => max a (t.bbox.x + t.bbox.width))
        (t0.bbox.x + t0.bbox.width)
      let max_y := rest.foldl (fun a t => max a (t.bbox.y + t.bbox.height))
        (t0.bbox.y + t0.bbox.height)
      let token_ids :=
        match token_id_map with
        | none => []
        | some m =>
            if m.isEmpty then []
            else all_tokens.filterMap (fun t =>
              (m.find? (fun p => p.1 == t)).map (fun p => p.2))
      some { region_id := "table_p" ++ toString page_num ++ "_l" ++ toString start_idx
             region_type := RegionType.TABLE
             bbox := { x := min_x, y := min_y,
                       width := max_x - min_x, height := max_y - min_y }
             page := page_num
             token_ids := token_ids
             detected_by := "layout_agent"
             confidence := 7 / 10
             hintsLines := table_lines.length }

/-- One iteration of the scan loop of `propose_table_regions`
(`layout_agent.py` lines 273-309).  State: (regions flushed so far,
`current_table_start`, `current_table_lines`).  On the stop-cue flush (lines
287-290) the source calls `_create_table_region` with only three arguments —
without `token_id_map` — whereas the other flush paths (lines 301-304 and
312-318) pass the map. -/
def propose_step (page_num : Nat) (m : List (Token × Nat))
    (st : List Region × Option Nat × List (List Token))
    (p : Nat × List Token) :
    List Region × Option Nat × List (List Token) :=
  let line_text := joined_lower p.2
  let is_stop_cue := TABLE_STOP_CUES.any (fun cue => strContains line_text cue)
  let has_structure := decide (2 ≤ p.2.length)
  let has_numbers := p.2.any (fun t => is_table_data_type t.token_type)
  if is_stop_cue && !st.2.2.isEmpty then
    (if 3 ≤ st.2.2.length then
        st.1 ++ (create_table_region st.2.2 page_num (st.2.1.getD 0) none).toList
      else st.1,
     none, [])
  else if has_structure && has_numbers && !is_stop_cue then
    (st.1, some (st.2.1.getD p.1), st.2.2 ++ [p.2])
  else
    (if 3 ≤ st.2.2.length then
        st.1 ++ (create_table_region st.2.2 page_num (st.2.1.getD 0) (some m)).toList
      else st.1,
     none, [])

/-- `LayoutAgent.propose_table_regions`, `layout_agent.py` lines 253-320. -/
def propose_table_regions (lines : List (List Token)) (page_num : Nat)
    (token_id_map : Option (List (Token × Nat))) : List Region :=
  if lines.length < 3 then []
  else
    let m := token_id_map.getD []
    let st := lines.enum.foldl (propose_step page_num m) ([], none, [])
    if st.2.2.isEmpty = false ∧ 3 ≤ st.2.2.length then
      st.1 ++ (create_table_region st.2.2 page_num (st.2.1.getD 0) (some m)).toList
    else st.1

end LayoutAgent

/-- First table-like line of the C4 scenario: two tokens, one NUMBER-typed,
no stop cue in the joined text. -/
def c4l0 : List Token :=
  [{ text := "row", bbox := { x := 0, y := 0, width := 1, height := 1 },
     page := 0, token_type := TokenType.TEXT, confidence := 1 },
   { text := "5", bbox := { x := 2, y := 0, width := 1, height := 1 },
     page := 0, token_type := TokenType.NUMBER, confidence := 1 }]

/-- Second table-like line of the C4 scenario. -/
def c4l1 : List Token :=
  [{ text := "row", bbox := { x := 0, y := 1, width := 1, height := 1 },
     page := 0, token_type := TokenType.TEXT, confidence := 1 },
   { text := "6", bbox := { x := 2, y := 1, width := 1, height := 1 },
     page := 0, token_type := TokenType.NUMBER, confidence := 1 }]

/-- Third table-like line of the C4 scenario. -/
def c4l2 : List Token :=
  [{ text := "row", bbox := { x := 0, y := 2, width := 1, height := 1 },
     page := 0, token_type := TokenType.TEXT, confidence := 1 },
   { text := "7", bbox := { x := 2, y := 2, width := 1, height := 1 },
     page := 0, token_type := TokenType.NUMBER, confidence := 1 }]

/-- Stop-cue line of the C4 scenario (joined lowercase text contains
`total`). -/
def c4stop : List Token :=
  [{ text := "Total", bbox := { x := 0, y := 3, width := 1, height := 1 },
     page := 0, token_type := TokenType.TEXT, confidence := 1 },
   { text := "18", bbox := { x := 2, y := 3, width := 1, height := 1 },
     page := 0, token_type := TokenType.NUMBER, confidence := 1 }]

/-- A nonempty token-id map covering every token of the C4 scenario. -/
def c4map : List (Token × Nat) :=
  (c4l0 ++ c4l1 ++ c4l2 ++ c4stop).enum.map (fun p => (p.2, p.1))

/-- C4: a buffer of 2 table-like lines is indeed never flushed (conjunct 4),
and 3 qualifying lines followed by a stop-cue line do propose exactly one
TABLE region from those 3 lines — but because the stop-cue flush drops the
`token_id_map` argument, the proposed region's `token_ids` is empty (conjunct
1) even though the same 3 lines flushed at end of page carry all six token
ids (conjunct 3) and the map is nonempty (conjunct 2). -/
theorem C4_stop_cue_flush_drops_token_ids :
    ((LayoutAgent.propose_table_regions [c4l0, c4l1, c4l2, c4stop] 0
        (some c4map)).map (fun r => (r.region_id, r.token_ids, r.hintsLines))) =
      [("table_p0_l0", ([] : List Nat), 3)]
    ∧ c4map.isEmpty = false
    ∧ ((LayoutAgent.propose_table_regions [c4l0, c4l1, c4l2] 0
        (some c4map)).map (fun r => (r.region_id, r.token_ids, r.hintsLines))) =
      [("table_p0_l0", [0, 1, 2, 3, 4, 5], 3)]
    ∧ LayoutAgent.propose_table_regions [c4l0, c4l1, c4stop] 0 (some c4map) = [] := by
  refine ⟨by decide, by decide, by decide, by decide⟩

/-- Regular expressions over characters.  Character classes are predicates,
written directly in their `re.IGNORECASE` semantics (the flag
`infer_token_type` always passes, `layout_agent.py` line 82). -/
inductive RE where
  | emp : RE
  | eps : RE
  | cls : (Char → Bool) → RE
  | cat : RE → RE → RE
  | alt : RE → RE → RE
  | star : RE → RE

def RE.nullable : RE → Bool
  | .emp => false
  | .eps => true
  | .cls _ => false
  | .cat a b => a.nullable && b.nullable
  | .alt a b => a.nullable || b.nullable
  | .star _ => true

/-- Concatenation, collapsing the empty and the unit language (keeps
derivatives small). -/
def RE.catS (a b : RE) : RE :=
  match a, b with
  | .emp, _ => .emp
  | _, .emp => .emp
  | .eps, b => b
  | a, .eps => a
  | a, b => .cat a b

/-- Alternation, collapsing the empty language. -/
def RE.altS (a b : RE) : RE :=
  match a, b with
  | .emp, b => b
  | a, .emp => a
  | a, b => .alt a b

/-- Brzozowski derivative. -/
def RE.deriv (r : RE) (c : Char) : RE :=
  match r with
  | .emp => .emp
  | .eps => .emp
  | .cls p => if p c then .eps else .emp
  | .cat a b =>
      if a.nullable then RE.altS (RE.catS (a.deriv c) b) (b.deriv c)
      else RE.catS (a.deriv c) b
  | .alt a b => RE.altS (a.deriv c) (b.deriv c)
  | .star a => RE.catS (a.deriv c) (RE.star a)

/-- Whole-string match via iterated derivatives. -/
def rmatch (r : RE) (s : List Char) : Bool :=
  (s.foldl RE.deriv r).nullable

def anyCharRE : RE := RE.cls (fun _ => true)

/-- Substring search: some contiguous substring of `s` matches `r`, i.e. the
whole string matches `.* r .*`.  This is the match-existence semantics of
`re.search`. -/
def rsearch (r : RE) (s : List Char) : Bool :=
  rmatch (RE.cat (RE.star anyCharRE) (RE.cat r (RE.star anyCharRE))) s

/-- A literal character under `re.IGNORECASE`. -/
def chrI (c : Char) : RE :=
  RE.cls (fun x => x.toLower == c.toLower)

/-- A case-sensitive character (used for characters without case). -/
def chr (c : Char) : RE :=
  RE.cls (fun x => x == c)

/-- A literal string under `re.IGNORECASE`. -/
def strI (s : String) : RE :=
  s.data.foldr (fun c r => RE.cat (chrI c) r) RE.eps

/-- `r?` -/
def opt (r : RE) : RE := RE.alt r RE.eps

/-- `r{n}` -/
def rep : Nat → RE → RE
  | 0, _ => RE.eps
  | n + 1, r => RE.cat r (rep n r)

/-- `n` optional copies of `r`. -/
def repOpt : Nat → RE → RE
  | 0, _ => RE.eps
  | n + 1, r => RE.cat (opt r) (repOpt n r)

/-- `r{m,n}` -/
def repRange (m n : Nat) (r : RE) : RE :=
  RE.cat (rep m r) (repOpt (n - m) r)

/-- `r+` -/
def plus (r : RE) : RE := RE.cat r (RE.star r)

/-- `r{m,}` -/
def repMin (m : Nat) (r : RE) : RE :=
  RE.cat (rep m r) (RE.star r)

/-- `a|b|...` over a list. -/
def altList (l : List RE) : RE :=
  l.foldr RE.altS RE.emp

/-- `\d` -/
def digitC : RE := RE.cls Char.isDigit

/-- `\s` -/
def wsC : RE := RE.cls Char.isWhitespace

/-- `[A-Z]` or `[a-z]` under `re.IGNORECASE`: any ASCII letter. -/
def letterC : RE := RE.cls Char.isAlpha

/-- `[-\/]` -/
def slashDashC : RE := RE.cls (fun c => c == '/' || c == '-')

/-- `[-.\s]` -/
def sepC : RE := RE.cls (fun c => c == '-' || c == '.' || c.isWhitespace)

/-- `[$£€¥]` -/
def curSymC : RE := RE.cls (fun c => c == '$' || c == '£' || c == '€' || c == '¥')

/-- `[AP]` under `re.IGNORECASE`. -/
def apC : RE := RE.cls (fun c => c.toLower == 'a' || c.toLower == 'p')

/-- `[a-zA-Z0-9._%+-]` -/
def localC : RE :=
  RE.cls (fun c => c.isAlphanum || c == '.' || c == '_' || c == '%' || c == '+' || c == '-')

/-- `[a-zA-Z0-9.-]` -/
def domainC : RE :=
  RE.cls (fun c => c.isAlphanum || c == '.' || c == '-')

/-- Python `str.strip()` (trim whitespace at both ends). -/
def strTrim (s : String) : List Char :=
  ((s.data.dropWhile Char.isWhitespace).reverse.dropWhile Char.isWhitespace).reverse

namespace LayoutAgent

/-- `\d{1,2}[-\/]\d{1,2}[-\/]\d{2,4}` (`layout_agent.py` line 33). -/
def pat_date1 : RE :=
  RE.cat (repRange 1 2 digitC) (RE.cat slashDashC (RE.cat (repRange 1 2 digitC)
    (RE.cat slashDashC (repRange 2 4 digitC))))

/-- `Jan|Feb|Mar|Apr|May|Jun|Jul|Aug|Sep|Oct|Nov|Dec` (case-insensitive). -/
def monthsRE : RE :=
  altList [strI "Jan", strI "Feb", strI "Mar", strI "Apr", strI "May", strI "Jun",
           strI "Jul", strI "Aug", strI "Sep", strI "Oct", strI "Nov", strI "Dec"]

/-- `\d{1,2}\s+(?:Jan|...|Dec)[a-z]*\s+\d{2,4}` (`layout_agent.py` line 34);
under `re.IGNORECASE` the `[a-z]` class is any letter. -/
def pat_date2 : RE :=
  RE.cat (repRange 1 2 digitC) (RE.cat (plus wsC) (RE.cat monthsRE
    (RE.cat (RE.star letterC) (RE.cat (plus wsC) (repRange 2 4 digitC)))))

/-- `\d{1,2}\s+[A-Z][a-z]{2}` (`layout_agent.py` line 35); under
`re.IGNORECASE` both classes are any letter. -/
def pat_date3 : RE :=
  RE.cat (repRange 1 2 digitC) (RE.cat (plus wsC)
    (RE.cat letterC (RE.cat letterC letterC)))

/-- `\d{1,2}:\d{2}(?::\d{2})?(?:\s*[AP]M)?` (`layout_agent.py` line 38). -/
def pat_time : RE :=
  RE.cat (repRange 1 2 digitC) (RE.cat (chr ':') (RE.cat (rep 2 digitC)
    (RE.cat (opt (RE.cat (chr ':') (rep 2 digitC)))
      (opt (RE.cat (RE.star wsC) (RE.cat apC (chrI 'M')))))))

/-- `\+?\d{1,3}[-.\s]?\(?\d{1,4}\)?[-.\s]?\d{1,4}[-.\s]?\d{1,9}`
(`layout_agent.py` line 41). -/
def pat_phone : RE :=
  RE.cat (opt (chr '+')) (RE.cat (repRange 1 3 digitC) (RE.cat (opt sepC)
    (RE.cat (opt (chr '(')) (RE.cat (repRange 1 4 digitC) (RE.cat (opt (chr ')'))
      (RE.cat (opt sepC) (RE.cat (repRange 1 4 digitC)
        (RE.cat (opt sepC) (repRange 1 9 digitC)))))))))

/-- `[$£€¥]\s*\d+(?:,\d{3})*(?:\.\d{2})?` (`layout_agent.py` line 44). -/
def pat_currency1 : RE :=
  RE.cat curSymC (RE.cat (RE.star wsC) (RE.cat (plus digitC)
    (RE.cat (RE.star (RE.cat (chr ',') (rep 3 digitC)))
      (opt (RE.cat (chr '.') (rep 2 digitC))))))

/-- `\d+(?:,\d{3})*(?:\.\d{2})??\s*(?:USD|EUR|GBP|AUD)` (`layout_agent.py`
line 45); the lazy `??` has the same match-existence semantics as `?`. -/
def pat_currency2 : RE :=
  RE.cat (plus digitC) (RE.cat (RE.star (RE.cat (chr ',') (rep 3 digitC)))
    (RE.cat (opt (RE.cat (chr '.') (rep 2 digitC)))
      (RE.cat (RE.star wsC) (altList [strI "USD", strI "EUR", strI "GBP", strI "AUD"]))))

/-- `\d+(?:\.\d+)?\s*(?:KB|MB|GB|TB)` (`layout_agent.py` line 48). -/
def pat_volume : RE :=
  RE.cat (plus digitC) (RE.cat (opt (RE.cat (chr '.') (plus digitC)))
    (RE.cat (RE.star wsC) (altList [strI "KB", strI "MB", strI "GB", strI "TB"])))

/-- `\d{1,2}:\d{2}:\d{2}` (`layout_agent.py` line 51). -/
def pat_duration : RE :=
  RE.cat (repRange 1 2 digitC) (RE.cat (chr ':') (RE.cat (rep 2 digitC)
    (RE.cat (chr ':') (rep 2 digitC))))

/-- `[a-zA-Z0-9._%+-]+@[a-zA-Z0-9.-]+\.[a-zA-Z]{2,}` (`layout_agent.py`
line 54). -/
def pat_email : RE :=
  RE.cat (plus localC) (RE.cat (chr '@') (RE.cat (plus domainC)
    (RE.cat (chr '.') (repMin 2 letterC))))

/-- `^\d+(?:\.\d+)?$` (`layout_agent.py` line 57) — the only anchored
pattern. -/
def pat_number : RE :=
  RE.cat (plus digitC) (opt (RE.cat (chr '.') (plus digitC)))

/-- A source pattern: its expression plus whether it carries `^...$`
anchors. -/
structure Pat where
  re : RE
  anchored : Bool

/-- `re.search(pattern, text, re.IGNORECASE)`: for an unanchored pattern some
contiguous substring must match; for the one `^...$`-anchored pattern
(NUMBER) `re.search` is a whole-string match. -/
def reSearch (p : Pat) (s : List Char) : Bool :=
  if p.anchored then rmatch p.re s else rsearch p.re s

/-- `LayoutAgent.PATTERNS`, `layout_agent.py` lines 31-59, in dict insertion
order (Python dicts iterate in insertion order). -/
def PATTERNS : List (TokenType × List Pat) :=
  [(TokenType.DATE, [⟨pat_date1, false⟩, ⟨pat_date2, false⟩, ⟨pat_date3, false⟩]),
   (TokenType.TIME, [⟨pat_time, false⟩]),
   (TokenType.PHONE, [⟨pat_phone, false⟩]),
   (TokenType.CURRENCY, [⟨pat_currency1, false⟩, ⟨pat_currency2, false⟩]),
   (TokenType.DATA_VOLUME, [⟨pat_volume, false⟩]),
   (TokenType.DURATION, [⟨pat_duration, false⟩]),
   (TokenType.EMAIL, [⟨pat_email, false⟩]),
   (TokenType.NUMBER, [⟨pat_number, true⟩])]

/-- The double loop of `infer_token_type` (`layout_agent.py` lines 80-84):
first type whose pattern set matches wins. -/
def inferLoop : List (TokenType × List Pat) → List Char → TokenType
  | [], _ => TokenType.TEXT
  | (ty, pats) :: rest, t =>
      if pats.any (fun p => reSearch p t) then ty else inferLoop rest t

/-- `LayoutAgent.infer_token_type`, `layout_agent.py` lines 75-85: strip the
text, walk `PATTERNS` in order, return TEXT when nothing matches. -/
def infer_token_type (text : String) : TokenType :=
  inferLoop PATTERNS (strTrim text)

end LayoutAgent

lemma inferLoop_find_characterisation
    (l : List (TokenType × List LayoutAgent.Pat)) (t : List Char) :
    LayoutAgent.inferLoop l t =
      ((l.find? (fun pr => pr.2.any (fun p => LayoutAgent.reSearch p t))).map
        Prod.fst).getD TokenType.TEXT := by
  induction l with
  | nil => rfl
  | cons hd rest ih =>
      obtain ⟨ty, pats⟩ := hd
      by_cases h : pats.any (fun p => LayoutAgent.reSearch p t) = true
      · simp [LayoutAgent.inferLoop, List.find?, h]
      · simp only [Bool.not_eq_true] at h
        simp [LayoutAgent.inferLoop, List.find?, h, ih]

/-- C7: token classification is a pure function of the stripped token text:
`infer_token_type` returns the first type in the fixed order DATE, TIME,
PHONE, CURRENCY, DATA_VOLUME, DURATION, EMAIL, NUMBER whose pattern set
matches the stripped text (case-insensitively), and TEXT when none matches;
in particular "03:15:27" matches both the TIME and the DURATION pattern sets
and resolves to the earlier type, TIME. -/
theorem C7_token_type_precedence :
    (∀ text : String,
      LayoutAgent.infer_token_type text =
        ((LayoutAgent.PATTERNS.find? (fun pr =>
            pr.2.any (fun p => LayoutAgent.reSearch p (strTrim text)))).map
          Prod.fst).getD TokenType.TEXT)
    ∧ LayoutAgent.reSearch ⟨LayoutAgent.pat_duration, false⟩ "03:15:27".data = true
    ∧ LayoutAgent.reSearch ⟨LayoutAgent.pat_time, false⟩ "03:15:27".data = true
    ∧ LayoutAgent.infer_token_type "03:15:27" = TokenType.TIME := by
  refine ⟨?_, by decide, by decide, by decide⟩
  intro text
  exact inferLoop_find_characterisation LayoutAgent.PATTERNS (strTrim text)

end PdfOcr
